import Mathlib

/-!
# LUSDT contract suite — shallow embedding and verification

A shallow embedding in Lean 4 of the three ink! contracts of the LUSDT
repository that the verified claims are about:

* the token ledger (contracts/lusdt_token/src/lib.rs): balances,
  allowances, the pause flag, the reentrancy lock, mint-rate limiting;
* the fee engine (contracts/tax_manager/src/lib.rs): fee computation in
  the staked asset with tiered caps, the 80/15/5 distribution, the
  dual-fee and burn-fee-only entry points;
* the reward engine (contracts/staking_manager/src/lib.rs): the
  reward-per-share accumulator and the unstake flow.

Modelling conventions:
* account identifiers are natural numbers; u128 balances are Nat with
  every checked operation of the source modelled as an explicit bounds
  check against 2^128 (checkedAdd / checkedSub / checkedMul / checkedDiv),
  and saturating operations as explicit min / truncated subtraction;
* an ink! storage Mapping is a total function returning the value that
  Mapping::get().unwrap_or(default) would return (for the staking map,
  an Option mirroring Mapping::get directly);
* each message is a function from the contract state and arguments to a
  result and the post-state, translated line by line from the Rust body;
  block timestamps are passed as explicit arguments;
* cross-contract token transfers are external calls: their success or
  failure is an input (a Bool or an oracle function), and the transfers a
  call performs are reported in its output so theorems can speak about
  them.  Reentrant calls back into a locked ledger cannot alter ledger
  state (every entry point begins with the pause and lock checks), so the
  ledger state is not threaded through the fee-hook interaction;
* events and their string payloads are not modelled (no claim mentions
  them beyond the fact of emission).
-/

/-- Result type mirroring core::result::Result as the contracts use it. -/
inductive Outcome (ε : Type) (α : Type) where
  | ok (val : α)
  | err (e : ε)
deriving DecidableEq, Repr

/-- 2^128, the first value outside the range of the u128 Balance type. -/
def U128LIM : Nat := 2 ^ 128

/-- u128::checked_add. -/
def checkedAdd (a b : Nat) : Option Nat :=
  if a + b < U128LIM then some (a + b) else none

/-- u128::checked_sub. -/
def checkedSub (a b : Nat) : Option Nat :=
  if b ≤ a then some (a - b) else none

/-- u128::checked_mul. -/
def checkedMul (a b : Nat) : Option Nat :=
  if a * b < U128LIM then some (a * b) else none

/-- u128::checked_div. -/
def checkedDiv (a b : Nat) : Option Nat :=
  if b = 0 then none else some (a / b)

/-- checked_mul followed by checked_div, the source's
`a.checked_mul(b).and_then(v -> v.checked_div(c))` idiom. -/
def checkedMulDiv (a b c : Nat) : Option Nat :=
  match checkedMul a b with
  | none => none
  | some v => checkedDiv v c

/-- u128::saturating_add (u128 saturates at 2^128 - 1). -/
def satAdd (a b : Nat) : Nat := min (a + b) (U128LIM - 1)

/-- u128::saturating_mul. -/
def satMul (a b : Nat) : Nat := min (a * b) (U128LIM - 1)

/-- Point update of a map with Nat keys (Mapping::insert). -/
def updFn (f : Nat → Nat) (k v : Nat) : Nat → Nat :=
  fun a => if a = k then v else f a

/-- Point update of a map with pair keys (Mapping::insert on a tuple key). -/
def updPair (f : Nat × Nat → Nat) (k : Nat × Nat) (v : Nat) : Nat × Nat → Nat :=
  fun a => if a = k then v else f a

namespace Ledger

/-- Error enum of the lusdt_token contract. -/
inductive Error where
  | insufficientBalance
  | insufficientAllowance
  | invalidSolanaAddress
  | unauthorized
  | contractPaused
  | reentrancyDetected
  | rateLimitExceeded
  | mathOverflow
  | mathUnderflow
deriving DecidableEq, Repr

abbrev Res := Outcome Error Unit

/-- Storage of the LusdtToken contract.  The pause metadata
(pause_reason, paused_at), the emergency_admin and tax_manager addresses
and last_mint_time are omitted: none of the embedded operations reads
them. -/
structure State where
  total_supply : Nat
  balances : Nat → Nat
  allowances : Nat × Nat → Nat
  owner : Nat
  bridge_account : Nat
  paused : Bool
  locked : Bool
  mint_window_amount : Nat
  mint_window_start : Nat

/-- RATE_LIMIT_WINDOW: one hour in milliseconds. -/
def RATE_LIMIT_WINDOW : Nat := 3600000

/-- MAX_MINT_PER_HOUR: 1M LUSDT in smallest units (12 decimals). -/
def MAX_MINT_PER_HOUR : Nat := 1000000000000

/-- mint(to, amount): pause check, reentrancy lock, bridge-role check,
rate limit, then supply and balance credits; the tax-manager fee hook is
an external interaction whose failure is swallowed and which cannot
mutate the (locked) ledger, then the lock is released.  Error exits after
the lock was taken return with the lock still held, exactly as the Rust
`?` operator does. -/
def mint (s : State) (caller toAcc amount now : Nat) : Res × State :=
  if s.paused then (.err .contractPaused, s)
  else if s.locked then (.err .reentrancyDetected, s)
  else
    -- ensure_not_locked: self.locked = true
    let s1 : State := {s with locked := true}
    if caller ≠ s1.bridge_account then (.err .unauthorized, s1)
    else
      -- check_mint_rate_limit: reset window if expired
      let s2 : State :=
        if RATE_LIMIT_WINDOW ≤ now - s1.mint_window_start then
          {s1 with mint_window_start := now, mint_window_amount := 0}
        else s1
      match checkedAdd s2.mint_window_amount amount with
      | none => (.err .mathOverflow, s2)
      | some newAmt =>
        if MAX_MINT_PER_HOUR < newAmt then (.err .rateLimitExceeded, s2)
        else
          let s3 : State := {s2 with mint_window_amount := newAmt}
          if amount = 0 then (.ok (), {s3 with locked := false})
          else
            match checkedAdd s3.total_supply amount with
            | none => (.err .mathOverflow, s3)
            | some newSupply =>
              let s4 : State := {s3 with total_supply := newSupply}
              match checkedAdd (s4.balances toAcc) amount with
              | none => (.err .mathOverflow, s4)
              | some newBal =>
                let s5 : State := {s4 with balances := updFn s4.balances toAcc newBal}
                (.ok (), {s5 with locked := false})

/-- approve(spender, amount): reentrancy lock, then an absolute set of
the (caller, spender) allowance.  The source returns Ok without ever
calling unlock, so the lock stays held. -/
def approve (s : State) (caller spender amount : Nat) : Res × State :=
  if s.locked then (.err .reentrancyDetected, s)
  else
    let s1 : State := {s with locked := true}
    (.ok (), {s1 with allowances := updPair s1.allowances (caller, spender) amount})

/-- transfer(to, value): pause check, reentrancy lock, balance check,
debit caller, credit recipient, unlock. -/
def transfer (s : State) (caller toAcc value : Nat) : Res × State :=
  if s.paused then (.err .contractPaused, s)
  else if s.locked then (.err .reentrancyDetected, s)
  else
    let s1 : State := {s with locked := true}
    let fromBal := s1.balances caller
    if fromBal < value then (.err .insufficientBalance, {s1 with locked := false})
    else
      match checkedSub fromBal value with
      | none => (.err .mathUnderflow, s1)
      | some newFromBal =>
        let s2 : State := {s1 with balances := updFn s1.balances caller newFromBal}
        match checkedAdd (s2.balances toAcc) value with
        | none => (.err .mathOverflow, s2)
        | some newToBal =>
          let s3 : State := {s2 with balances := updFn s2.balances toAcc newToBal}
          (.ok (), {s3 with locked := false})

/-- transfer_from(from, to, amount): pause check, reentrancy lock,
allowance check and decrement, then balance check and the move.  The
allowance decrement is written to storage before the balance check, so
the insufficient-balance exit keeps the decreased allowance. -/
def transfer_from (s : State) (caller fromAcc toAcc amount : Nat) : Res × State :=
  if s.paused then (.err .contractPaused, s)
  else if s.locked then (.err .reentrancyDetected, s)
  else
    let s1 : State := {s with locked := true}
    let curAllow := s1.allowances (fromAcc, caller)
    if curAllow < amount then (.err .insufficientAllowance, {s1 with locked := false})
    else
      match checkedSub curAllow amount with
      | none => (.err .mathUnderflow, s1)
      | some newAllow =>
        let s2 : State := {s1 with allowances := updPair s1.allowances (fromAcc, caller) newAllow}
        let fromBal := s2.balances fromAcc
        if fromBal < amount then (.err .insufficientBalance, {s2 with locked := false})
        else
          match checkedSub fromBal amount with
          | none => (.err .mathUnderflow, s2)
          | some newFromBal =>
            let s3 : State := {s2 with balances := updFn s2.balances fromAcc newFromBal}
            match checkedAdd (s3.balances toAcc) amount with
            | none => (.err .mathOverflow, s3)
            | some newToBal =>
              let s4 : State := {s3 with balances := updFn s3.balances toAcc newToBal}
              (.ok (), {s4 with locked := false})

end Ledger

namespace Staking

/-- Error enum of the staking_manager contract. -/
inductive Error where
  | unauthorized
  | belowMinimumStake
  | noActiveStake
  | lunesTransferFailed
  | lusdtTransferFailed
  | arithmeticOverflow
  | noRewardsToClaim
  | zeroAmount
  | cooldownNotElapsed
  | contractPaused
deriving DecidableEq, Repr

abbrev Res := Outcome Error Unit

/-- PRECISION: 1e18 fixed-point scale of the reward-per-token accumulator. -/
def PRECISION : Nat := 1000000000000000000

/-- Per-staker accounting record (StakerInfo). -/
structure StakerInfo where
  amount : Nat
  reward_per_token_paid : Nat
  pending_rewards : Nat
  staked_at : Nat
deriving DecidableEq, Repr

/-- Storage of the StakingManager contract.  The lunes_token and
lusdt_token addresses are omitted: they only name the external token
contracts whose transfer outcomes are passed in explicitly. -/
structure State where
  owner : Nat
  min_stake : Nat
  total_staked : Nat
  reward_per_token_stored : Nat
  total_rewards_deposited : Nat
  total_rewards_claimed : Nat
  stakers : Nat → Option StakerInfo
  staker_count : Nat
  unstake_cooldown_ms : Nat
  paused : Bool
  authorized_depositor : Option Nat

/-- _update_reward: settle a staker's pending rewards against the global
accumulator before any change to the stake.  Pure on the contract state
(&self); returns the updated local StakerInfo. -/
def _update_reward (s : State) (info : StakerInfo) : Outcome Error StakerInfo :=
  if 0 < info.amount then
    match checkedSub s.reward_per_token_stored info.reward_per_token_paid with
    | none => .err .arithmeticOverflow
    | some delta =>
      match checkedMulDiv info.amount delta PRECISION with
      | none => .err .arithmeticOverflow
      | some earned =>
        match checkedAdd info.pending_rewards earned with
        | none => .err .arithmeticOverflow
        | some newPending =>
          .ok {info with pending_rewards := newPending,
                         reward_per_token_paid := s.reward_per_token_stored}
  else
    .ok {info with reward_per_token_paid := s.reward_per_token_stored}

/-- _distribute_new_rewards: advance the reward-per-token accumulator by
amount * PRECISION / total_staked when total_staked > 0 (unchanged when
total_staked == 0), then add the amount to total_rewards_deposited. -/
def _distribute_new_rewards (s : State) (amount : Nat) : Res × State :=
  let step2 : State → Res × State := fun s1 =>
    match checkedAdd s1.total_rewards_deposited amount with
    | none => (.err .arithmeticOverflow, s1)
    | some t => (.ok (), {s1 with total_rewards_deposited := t})
  if 0 < s.total_staked then
    match checkedMulDiv amount PRECISION s.total_staked with
    | none => (.err .arithmeticOverflow, s)
    | some inc =>
      match checkedAdd s.reward_per_token_stored inc with
      | none => (.err .arithmeticOverflow, s)
      | some nrps => step2 {s with reward_per_token_stored := nrps}
  else
    step2 s

/-- ensure_authorized_depositor: owner or the configured depositor. -/
def ensure_authorized_depositor (s : State) (caller : Nat) : Res :=
  if caller = s.owner then .ok ()
  else
    match s.authorized_depositor with
    | some depositor => if caller = depositor then .ok () else .err .unauthorized
    | none => .err .unauthorized

/-- _notify_reward_amount: reward deposit notification for rewards
transferred directly; zero-amount check, authorization, then the
accumulator update. -/
def _notify_reward_amount (s : State) (caller amount : Nat) : Res × State :=
  if amount = 0 then (.err .zeroAmount, s)
  else
    match ensure_authorized_depositor s caller with
    | .err e => (.err e, s)
    | .ok _ => _distribute_new_rewards s amount

/-- _deposit_rewards: like _notify_reward_amount but first pulls the
LUSDT via transfer_from on the reward token; pullOk is that external
call's outcome. -/
def _deposit_rewards (s : State) (caller amount : Nat) (pullOk : Bool) : Res × State :=
  if amount = 0 then (.err .zeroAmount, s)
  else
    match ensure_authorized_depositor s caller with
    | .err e => (.err e, s)
    | .ok _ =>
      if pullOk then _distribute_new_rewards s amount
      else (.err .lusdtTransferFailed, s)

/-- Output of unstake: the result, the post-state, and the successful
external token transfers the call performed (recipient, amount), for the
staked asset (LUNES) and the reward asset (LUSDT) respectively. -/
structure UnstakeOut where
  result : Res
  state : State
  lunesTransfers : List (Nat × Nat)
  lusdtTransfers : List (Nat × Nat)

/-- unstake(): full-position unstake.  principalOk / rewardOk are the
outcomes of the external LUNES principal transfer and LUSDT reward
transfer.  The principal transfer failing aborts the call before any
state change; the reward transfer failing leaves pending_rewards intact
while the unstake still completes. -/
def unstake (s : State) (caller now : Nat) (principalOk rewardOk : Bool) : UnstakeOut :=
  match s.stakers caller with
  | none => ⟨.err .noActiveStake, s, [], []⟩
  | some info0 =>
    if info0.amount = 0 then ⟨.err .noActiveStake, s, [], []⟩
    else if 0 < s.unstake_cooldown_ms ∧ now - info0.staked_at < s.unstake_cooldown_ms then
      ⟨.err .cooldownNotElapsed, s, [], []⟩
    else
      match _update_reward s info0 with
      | .err e => ⟨.err e, s, [], []⟩
      | .ok info1 =>
        let unstakeAmount := info1.amount
        if principalOk then
          let s1 : State := {s with total_staked := s.total_staked - unstakeAmount,
                                    staker_count := s.staker_count - 1}
          let info2 : StakerInfo := {info1 with amount := 0, staked_at := 0}
          let pending := info2.pending_rewards
          if 0 < pending then
            if rewardOk then
              let s2 : State :=
                {s1 with total_rewards_claimed := satAdd s1.total_rewards_claimed pending}
              let info3 : StakerInfo := {info2 with pending_rewards := 0}
              ⟨.ok (), {s2 with stakers := fun a => if a = caller then some info3 else s2.stakers a},
               [(caller, unstakeAmount)], [(caller, pending)]⟩
            else
              ⟨.ok (), {s1 with stakers := fun a => if a = caller then some info2 else s1.stakers a},
               [(caller, unstakeAmount)], []⟩
          else
            ⟨.ok (), {s1 with stakers := fun a => if a = caller then some info2 else s1.stakers a},
             [(caller, unstakeAmount)], []⟩
        else
          ⟨.err .lunesTransferFailed, s, [], []⟩

/-- get_pending_rewards: settled plus unsettled rewards, computed with
saturating arithmetic as in the source. -/
def get_pending_rewards (s : State) (user : Nat) : Nat :=
  let info := (s.stakers user).getD ⟨0, 0, 0, 0⟩
  if info.amount = 0 then info.pending_rewards
  else
    let delta := s.reward_per_token_stored - info.reward_per_token_paid
    let unsettled := satMul info.amount delta / PRECISION
    satAdd info.pending_rewards unsettled

end Staking

namespace Tax

/-- Fee payment type (common_types::FeeType). -/
inductive FeeType where
  | lunes
  | lusdt
  | usdt
deriving DecidableEq, Repr

/-- Error enum of the tax_manager contract. -/
inductive Error where
  | unauthorized
  | arithmeticOverflow
  | invalidFeeConfig
  | insufficientLunesBalance
  | lunesTransferFailed
  | lusdtTransferFailed
  | invalidPrice
  | burnEngineNotSet
deriving DecidableEq, Repr

abbrev Res := Outcome Error Unit

/-- Fee distribution wallet set. -/
structure DistributionWallets where
  dev_solana : Nat
  dev_lunes : Nat
  insurance_fund : Nat
  staking_rewards_pool : Nat
deriving DecidableEq, Repr

/-- Adaptive fee configuration. -/
structure FeeConfig where
  base_fee_bps : Nat
  volume_threshold_1_usd : Nat
  volume_threshold_2_usd : Nat
  low_volume_fee_bps : Nat
  medium_volume_fee_bps : Nat
  high_volume_fee_bps : Nat
deriving DecidableEq, Repr

/-- Storage of the TaxManager contract.  The version field and the two
token contract addresses are omitted: the token contracts are external
and their transfer outcomes are explicit inputs. -/
structure State where
  owner : Nat
  distribution_wallets : DistributionWallets
  fee_config : FeeConfig
  monthly_volume_usd : Nat
  last_volume_reset_timestamp : Nat
  lunes_price_usd : Nat
  burn_engine_address : Option Nat
  lunes_burn_fee_bps : Nat

/-- get_current_fee_bps from the rolling monthly volume. -/
def get_current_fee_bps (s : State) : Nat :=
  if s.monthly_volume_usd ≤ s.fee_config.volume_threshold_1_usd then
    s.fee_config.low_volume_fee_bps
  else if s.monthly_volume_usd ≤ s.fee_config.volume_threshold_2_usd then
    s.fee_config.medium_volume_fee_bps
  else
    s.fee_config.high_volume_fee_bps

/-- calculate_fee_in_lunes: USD fee at fee_bps basis points, converted
to the staked asset at lunes_price_usd (6 decimals), and capped by the
tiered maximum keyed on the transaction's USD size. -/
def calculate_fee_in_lunes (lusdt_amount fee_bps lunes_price_usd : Nat) :
    Outcome Error Nat :=
  if lunes_price_usd = 0 then .err .invalidPrice
  else
    match checkedMulDiv lusdt_amount fee_bps 10000 with
    | none => .err .arithmeticOverflow
    | some fee_usd =>
      match checkedMulDiv fee_usd 1000000 lunes_price_usd with
      | none => .err .arithmeticOverflow
      | some fee_in_lunes =>
        let max_fee_lunes :=
          if lusdt_amount ≤ 100000000 then 500000
          else if lusdt_amount ≤ 1000000000 then 2000000
          else if lusdt_amount ≤ 10000000000 then 10000000
          else 50000000
        .ok (min fee_in_lunes max_fee_lunes)

/-- calculate_fee_distributions: 80% dev / 15% insurance / remainder
staking, with the dev wallet selected by the fee currency. -/
def calculate_fee_distributions (s : State) (fee_amount : Nat) (fee_type : FeeType) :
    Outcome Error (List (Nat × Nat)) :=
  let wallets := s.distribution_wallets
  match checkedMulDiv fee_amount 80 100 with
  | none => .err .arithmeticOverflow
  | some dev_amount =>
    match checkedMulDiv fee_amount 15 100 with
    | none => .err .arithmeticOverflow
    | some insurance_amount =>
      let staking_amount := fee_amount - dev_amount - insurance_amount
      let dev_wallet :=
        match fee_type with
        | .usdt => wallets.dev_solana
        | .lusdt => wallets.dev_lunes
        | .lunes => wallets.dev_lunes
      .ok [(dev_wallet, dev_amount),
           (wallets.insurance_fund, insurance_amount),
           (wallets.staking_rewards_pool, staking_amount)]

/-- _update_monthly_volume: reset the rolling counter after 30 days,
then add the new transaction volume with checked arithmetic. -/
def _update_monthly_volume (s : State) (new_tx_volume_usd now : Nat) : Res × State :=
  let thirty_days_ms := 30 * 24 * 60 * 60 * 1000
  let s1 : State :=
    if thirty_days_ms ≤ now - s.last_volume_reset_timestamp then
      {s with monthly_volume_usd := 0, last_volume_reset_timestamp := now}
    else s
  match checkedAdd s1.monthly_volume_usd new_tx_volume_usd with
  | none => (.err .arithmeticOverflow, s1)
  | some v => (.ok (), {s1 with monthly_volume_usd := v})

/-- distribute_collected_fees: push each distribution leg to its wallet;
transferOk is the external LUNES token's per-transfer outcome, and a
failed non-zero leg fails the whole call. -/
def distribute_collected_fees (s : State) (fee_amount : Nat) (fee_type : FeeType)
    (transferOk : Nat → Nat → Bool) : Res :=
  match calculate_fee_distributions s fee_amount fee_type with
  | .err e => .err e
  | .ok distributions =>
    let rec loop : List (Nat × Nat) → Res
      | [] => .ok ()
      | (recipient, amount) :: rest =>
        if 0 < amount ∧ transferOk recipient amount = false then .err .lunesTransferFailed
        else loop rest
    loop distributions

/-- _process_fees_lunes: the legacy staked-asset fee path.  pullOk is the
outcome of the transfer_from pulling the fee from the user; transferOk
the per-leg outcome of the distribution pushes. -/
def _process_fees_lunes (s : State) (user lusdt_amount fee_bps : Nat)
    (pullOk : Bool) (transferOk : Nat → Nat → Bool) (now : Nat) : Res × State :=
  match calculate_fee_in_lunes lusdt_amount fee_bps s.lunes_price_usd with
  | .err e => (.err e, s)
  | .ok fee_amount =>
    if fee_amount = 0 then (.ok (), s)
    else if pullOk = false then (.err .lunesTransferFailed, s)
    else
      match distribute_collected_fees s fee_amount .lunes transferOk with
      | .err e => (.err e, s)
      | .ok _ => _update_monthly_volume s lusdt_amount now

/-- Output of the dual-fee and burn-fee-only entry points: the result,
the post-state, and the LUNES transfer sent to the burn engine, if one
was performed (recipient, amount). -/
structure BurnFeeOut where
  result : Res
  state : State
  burnTransfer : Option (Nat × Nat)

/-- _process_burn_fee_only: charge only the deflationary LUNES fee and
forward it to the burn engine; the price-dependent leg runs only when
lunes_burn_fee_bps > 0 and the configured price is non-zero, then the
monthly volume is updated.  lunesPullOk is the outcome of the external
transfer_from moving the LUNES to the burn engine. -/
def _process_burn_fee_only (s : State) (user lusdt_amount : Nat)
    (lunesPullOk : Bool) (now : Nat) : BurnFeeOut :=
  match s.burn_engine_address with
  | none => ⟨.err .burnEngineNotSet, s, none⟩
  | some burn_engine =>
    let lunes_burn_bps := s.lunes_burn_fee_bps
    if 0 < lunes_burn_bps ∧ 0 < s.lunes_price_usd then
      match calculate_fee_in_lunes lusdt_amount lunes_burn_bps s.lunes_price_usd with
      | .err e => ⟨.err e, s, none⟩
      | .ok lunes_burn_fee =>
        if 0 < lunes_burn_fee then
          if lunesPullOk then
            match _update_monthly_volume s lusdt_amount now with
            | (r, s1) => ⟨r, s1, some (burn_engine, lunes_burn_fee)⟩
          else ⟨.err .lunesTransferFailed, s, none⟩
        else
          match _update_monthly_volume s lusdt_amount now with
          | (r, s1) => ⟨r, s1, none⟩
    else
      match _update_monthly_volume s lusdt_amount now with
      | (r, s1) => ⟨r, s1, none⟩

/-- _process_dual_fee: stablecoin revenue leg (pulled via stablePullOk
and distributed 80/15/5 best-effort) followed by the deflationary LUNES
leg (as in _process_burn_fee_only); FeeType.lunes falls back to the
legacy path and returns early.  The best-effort stablecoin distribution
transfers and the staking notification discard their results and do not
touch this contract's state. -/
def _process_dual_fee (s : State) (user lusdt_amount : Nat)
    (stablecoin_fee_type : FeeType) (stablePullOk lunesPullOk : Bool)
    (legacyPullOk : Bool) (transferOk : Nat → Nat → Bool) (now : Nat) : BurnFeeOut :=
  match s.burn_engine_address with
  | none => ⟨.err .burnEngineNotSet, s, none⟩
  | some burn_engine =>
    let stablecoin_fee_bps := get_current_fee_bps s
    let lunes_burn_bps := s.lunes_burn_fee_bps
    match checkedMulDiv lusdt_amount stablecoin_fee_bps 10000 with
    | none => ⟨.err .arithmeticOverflow, s, none⟩
    | some stablecoin_fee =>
      -- Part 1: stablecoin revenue fee
      let part1 : Outcome Error (Option (Res × State)) :=
        if 0 < stablecoin_fee then
          match stablecoin_fee_type with
          | .lusdt =>
            if stablePullOk = false then .err .lusdtTransferFailed
            else
              match checkedMulDiv stablecoin_fee 80 100 with
              | none => .err .arithmeticOverflow
              | some _dev_share =>
                match checkedMulDiv stablecoin_fee 15 100 with
                | none => .err .arithmeticOverflow
                | some _insurance_share => .ok none
          | .usdt => .ok none
          | .lunes =>
            .ok (some (_process_fees_lunes s user lusdt_amount stablecoin_fee_bps
                         legacyPullOk transferOk now))
        else .ok none
      match part1 with
      | .err e => ⟨.err e, s, none⟩
      | .ok (some legacy) => ⟨legacy.1, legacy.2, none⟩
      | .ok none =>
        -- Part 2: deflationary LUNES burn fee
        if 0 < lunes_burn_bps ∧ 0 < s.lunes_price_usd then
          match calculate_fee_in_lunes lusdt_amount lunes_burn_bps s.lunes_price_usd with
          | .err e => ⟨.err e, s, none⟩
          | .ok lunes_burn_fee =>
            if 0 < lunes_burn_fee then
              if lunesPullOk then
                match _update_monthly_volume s lusdt_amount now with
                | (r, s1) => ⟨r, s1, some (burn_engine, lunes_burn_fee)⟩
              else ⟨.err .lunesTransferFailed, s, none⟩
            else
              match _update_monthly_volume s lusdt_amount now with
              | (r, s1) => ⟨r, s1, none⟩
        else
          match _update_monthly_volume s lusdt_amount now with
          | (r, s1) => ⟨r, s1, none⟩

end Tax

/-! ## Concrete states used by counterexamples and witnesses -/

/-- A fresh, unpaused, unlocked ledger: owner 1, bridge account 2,
account 3 holds the whole supply, allowances (3,2) = 700 and
(5,2) = 300. -/
def ledger0 : Ledger.State :=
  { total_supply := 1000000
    balances := fun a => if a = 3 then 1000000 else 0
    allowances := fun p => if p = (3, 2) then 700 else if p = (5, 2) then 300 else 0
    owner := 1
    bridge_account := 2
    paused := false
    locked := false
    mint_window_amount := 0
    mint_window_start := 0 }

/-- ledger0 with the reentrancy lock held (as it is during a locked
mint or burn). -/
def ledgerLocked : Ledger.State := {ledger0 with locked := true}

/-- ledger0 with the circuit breaker tripped. -/
def ledgerPaused : Ledger.State := {ledger0 with paused := true}

/-- A staking pool with 1000 units staked in total, of which staker 7
holds 500 with a fresh checkpoint; owner 1, no cooldown. -/
def staking0 : Staking.State :=
  { owner := 1
    min_stake := 100
    total_staked := 1000
    reward_per_token_stored := 0
    total_rewards_deposited := 0
    total_rewards_claimed := 0
    stakers := fun a => if a = 7 then some ⟨500, 0, 0, 0⟩ else none
    staker_count := 2
    unstake_cooldown_ms := 0
    paused := false
    authorized_depositor := none }

/-- A staking pool whose single staker 8 holds 600 units with 40 units
of settled pending rewards; owner 1, no cooldown. -/
def stakingC7 : Staking.State :=
  { owner := 1
    min_stake := 100
    total_staked := 600
    reward_per_token_stored := 0
    total_rewards_deposited := 100
    total_rewards_claimed := 0
    stakers := fun a => if a = 8 then some ⟨600, 0, 40, 0⟩ else none
    staker_count := 1
    unstake_cooldown_ms := 0
    paused := false
    authorized_depositor := some 5 }

/-- A fee engine with the default fee configuration (low tier 60 bps),
price 0.50 USD (6 decimals), burn engine at account 9, dev/insurance/
staking wallets 11/12/13/14. -/
def tax0 : Tax.State :=
  { owner := 1
    distribution_wallets := ⟨11, 12, 13, 14⟩
    fee_config := ⟨50, 10000000000, 100000000000, 60, 50, 30⟩
    monthly_volume_usd := 0
    last_volume_reset_timestamp := 0
    lunes_price_usd := 500000
    burn_engine_address := some 9
    lunes_burn_fee_bps := 10 }

/-- tax0 with the configured staked-asset price set to zero. -/
def taxZeroPrice : Tax.State := {tax0 with lunes_price_usd := 0}

/-! ## C1, C2 — reentrancy lock behaviour of the ledger -/

/-- Claim C1: the spec requires the reentrancy lock to be released
exactly once on every exit path of mint/burn/transfer/transfer_from/
approve.  The code violates this: a successful approve acquires the lock
and returns Ok without ever releasing it, and mint's unauthorized error
path also returns with the lock still held.  Evaluated at the failing
inputs: approve on a fresh unlocked ledger succeeds yet leaves
locked = true, and an owner (non-bridge) mint returns Unauthorized with
locked = true. -/
theorem C1_lock_not_released_on_every_exit :
    ledger0.locked = false ∧
    (Ledger.approve ledger0 4 5 500).1 = .ok () ∧
    (Ledger.approve ledger0 4 5 500).2.locked = true ∧
    (Ledger.mint ledger0 ledger0.owner 7 100 0).1 = .err .unauthorized ∧
    (Ledger.mint ledger0 ledger0.owner 7 100 0).2.locked = true := by
  decide

/-- Claim C2: the spec says transfer and transfer_from do not check the
reentrancy lock and succeed while it is held.  The code checks the lock
first in both: in a locked state with sufficient balance (account 3
holds 1000000) and sufficient allowance ((3,2) = 700), both calls fail
with ReentrancyDetected. -/
theorem C2_transfer_blocked_by_lock :
    ledgerLocked.locked = true ∧
    100 ≤ ledgerLocked.balances 3 ∧
    100 ≤ ledgerLocked.allowances (3, 2) ∧
    (Ledger.transfer ledgerLocked 3 4 100).1 = .err .reentrancyDetected ∧
    (Ledger.transfer_from ledgerLocked 2 3 4 100).1 = .err .reentrancyDetected := by
  decide

/-! ## C6 — mint authorization -/

/-- Claim C6 (amended): in any unpaused, unlocked state, mint's
authorization accepts exactly the bridge account: any other caller —
including the contract owner — fails with Unauthorized and changes no
balance and no supply (the admin is not a superset authority for mint),
while for the bridge account the call never fails with Unauthorized. -/
theorem C6_mint_requires_bridge_account (s : Ledger.State)
    (caller toAcc amount now : Nat)
    (hp : s.paused = false) (hl : s.locked = false) :
    (caller ≠ s.bridge_account →
      (Ledger.mint s caller toAcc amount now).1 = .err .unauthorized ∧
      (Ledger.mint s caller toAcc amount now).2.balances = s.balances ∧
      (Ledger.mint s caller toAcc amount now).2.total_supply = s.total_supply) ∧
    (caller = s.bridge_account →
      (Ledger.mint s caller toAcc amount now).1 ≠ .err .unauthorized) := by
  obtain ⟨ts, bal, al, ow, br, pa, lo, mwa, mws⟩ := s
  subst hp hl
  constructor
  · intro h
    simp [Ledger.mint, h]
  · intro h
    simp only [Ledger.mint, h]
    repeat' split
    all_goals simp_all

/-- Counterexample to claim C6 as stated: the contract owner (ADMIN
authority) of a fresh unpaused, unlocked ledger cannot mint — the call
fails with Unauthorized even though claim C6 says the owner can mint. -/
theorem C6_counterexample_owner_cannot_mint :
    ledger0.paused = false ∧ ledger0.locked = false ∧
    ledger0.owner ≠ ledger0.bridge_account ∧
    (Ledger.mint ledger0 ledger0.owner 7 1000 0).1 = .err .unauthorized := by
  decide

/-- Witness for C6_mint_requires_bridge_account at ledger0 with the
owner (account 1, not the bridge account 2) as caller. -/
theorem C6_witness :
    (Ledger.mint ledger0 1 7 1000 0).1 = .err .unauthorized ∧
    (Ledger.mint ledger0 1 7 1000 0).2.total_supply = ledger0.total_supply :=
  have h := C6_mint_requires_bridge_account ledger0 1 7 1000 0 rfl rfl
  ⟨(h.1 (by decide)).1, (h.1 (by decide)).2.2⟩

/-! ## C9, C10 — transfer_from error paths -/

/-- Claim C9 (amended): in every unpaused, unlocked state, a
transfer_from whose amount exceeds the current (from, caller) allowance
fails with InsufficientAllowance and returns the state completely
unchanged — no balance and no allowance is mutated. -/
theorem C9_allowance_exceeded_no_mutation (s : Ledger.State)
    (caller fromAcc toAcc amount : Nat)
    (hp : s.paused = false) (hl : s.locked = false)
    (ha : s.allowances (fromAcc, caller) < amount) :
    Ledger.transfer_from s caller fromAcc toAcc amount =
      (.err .insufficientAllowance, s) := by
  obtain ⟨ts, bal, al, ow, br, pa, lo, mwa, mws⟩ := s
  subst hp hl
  simp only [Ledger.transfer_from] at *
  simp [ha]

/-- Counterexample to claim C9 as stated (for every state): in a paused
state whose (9,2) allowance (0) is below the requested amount (50), the
call fails with ContractPaused, not with the insufficient-allowance
error. -/
theorem C9_counterexample_paused_state :
    ledgerPaused.allowances (9, 2) < 50 ∧
    (Ledger.transfer_from ledgerPaused 2 9 4 50).1 = .err .contractPaused ∧
    Ledger.Error.contractPaused ≠ Ledger.Error.insufficientAllowance := by
  decide

/-- Witness for C9_allowance_exceeded_no_mutation at ledger0
(allowance (9,2) = 0 < 50). -/
theorem C9_witness :
    Ledger.transfer_from ledger0 2 9 4 50 = (.err .insufficientAllowance, ledger0) :=
  C9_allowance_exceeded_no_mutation ledger0 2 9 4 50 rfl rfl (by decide)

/-- Claim C10 (amended): in every unpaused, unlocked state where the
(from, caller) allowance covers the amount but from's balance does not,
transfer_from fails with InsufficientBalance and still leaves the
(from, caller) allowance decreased by the amount — the deduction is not
rolled back — while every other allowance and every balance is
unchanged and the lock is released. -/
theorem C10_balance_exceeded_allowance_kept_decreased (s : Ledger.State)
    (caller fromAcc toAcc amount : Nat)
    (hp : s.paused = false) (hl : s.locked = false)
    (ha : amount ≤ s.allowances (fromAcc, caller))
    (hb : s.balances fromAcc < amount) :
    (Ledger.transfer_from s caller fromAcc toAcc amount).1 = .err .insufficientBalance ∧
    (Ledger.transfer_from s caller fromAcc toAcc amount).2.allowances (fromAcc, caller) =
      s.allowances (fromAcc, caller) - amount ∧
    (∀ k, k ≠ (fromAcc, caller) →
      (Ledger.transfer_from s caller fromAcc toAcc amount).2.allowances k =
        s.allowances k) ∧
    (Ledger.transfer_from s caller fromAcc toAcc amount).2.balances = s.balances ∧
    (Ledger.transfer_from s caller fromAcc toAcc amount).2.locked = false := by
  obtain ⟨ts, bal, al, ow, br, pa, lo, mwa, mws⟩ := s
  subst hp hl
  simp only [Ledger.State.mk.injEq] at *
  have key : Ledger.transfer_from ⟨ts, bal, al, ow, br, false, false, mwa, mws⟩
      caller fromAcc toAcc amount =
      (.err .insufficientBalance,
       ⟨ts, bal, updPair al (fromAcc, caller) (al (fromAcc, caller) - amount),
        ow, br, false, false, mwa, mws⟩) := by
    simp [Ledger.transfer_from, checkedSub, ha, Nat.not_lt.mpr ha, hb]
  rw [key]
  refine ⟨rfl, ?_, ?_, rfl, rfl⟩
  · simp [updPair]
  · intro k hk
    simp [updPair, hk]

/-- Counterexample to claim C10 as stated (for every state): in a locked
state with allowance (5,2) = 300 ≥ 100 and balance of account 5 equal to
0 < 100, the call fails with ReentrancyDetected instead of
InsufficientBalance and the allowance is not decreased. -/
theorem C10_counterexample_locked_state :
    100 ≤ ledgerLocked.allowances (5, 2) ∧
    ledgerLocked.balances 5 < 100 ∧
    (Ledger.transfer_from ledgerLocked 2 5 4 100).1 = .err .reentrancyDetected ∧
    Ledger.Error.reentrancyDetected ≠ Ledger.Error.insufficientBalance ∧
    (Ledger.transfer_from ledgerLocked 2 5 4 100).2.allowances (5, 2) = 300 := by
  decide

/-- Witness for C10_balance_exceeded_allowance_kept_decreased at ledger0
(allowance (5,2) = 300 ≥ 100, balance of account 5 is 0 < 100). -/
theorem C10_witness :
    (Ledger.transfer_from ledger0 2 5 4 100).1 = .err .insufficientBalance ∧
    (Ledger.transfer_from ledger0 2 5 4 100).2.allowances (5, 2) = 200 :=
  have h := C10_balance_exceeded_allowance_kept_decreased ledger0 2 5 4 100
    rfl rfl (by decide) (by decide)
  ⟨h.1, h.2.1⟩

/-! ## C3, C7 — reward accumulator and unstake -/

/-- checkedAdd returning some determines the sum. -/
theorem checkedAdd_some {a b v : Nat} (h : checkedAdd a b = some v) : v = a + b := by
  unfold checkedAdd at h
  split at h <;> simp_all

/-- checkedMulDiv returning some determines the quotient. -/
theorem checkedMulDiv_some {a b c v : Nat} (h : checkedMulDiv a b c = some v) :
    v = a * b / c := by
  unfold checkedMulDiv checkedMul checkedDiv at h
  by_cases hlim : a * b < U128LIM
  · simp only [if_pos hlim] at h
    by_cases hc : c = 0
    · simp [hc] at h
    · simp [hc] at h
      omega
  · simp [hlim] at h

/-- _update_reward never changes the staked amount. -/
theorem update_reward_amount_eq (s : Staking.State) (info info1 : Staking.StakerInfo)
    (h : Staking._update_reward s info = .ok info1) : info1.amount = info.amount := by
  unfold Staking._update_reward at h
  repeat' split at h
  all_goals simp_all
  all_goals subst h
  all_goals rfl

/-- Claim C3: depositing a reward amount R when total staked T > 0 (and
the call succeeds) advances reward_per_token_stored by exactly
R * PRECISION / T, and a deposit when T = 0 leaves the accumulator
unchanged; concretely, after notify_reward_amount deposits of 100 then
200 on a pool with 1000 staked, the accumulator holds
100*PRECISION/1000 + 200*PRECISION/1000 and staker 7's pending reward
(500 staked, untouched checkpoint) is 150. -/
theorem C3_reward_accumulator (s : Staking.State) (amount : Nat) :
    (0 < s.total_staked →
      (Staking._distribute_new_rewards s amount).1 = .ok () →
      (Staking._distribute_new_rewards s amount).2.reward_per_token_stored =
        s.reward_per_token_stored + amount * Staking.PRECISION / s.total_staked) ∧
    (s.total_staked = 0 →
      (Staking._distribute_new_rewards s amount).2.reward_per_token_stored =
        s.reward_per_token_stored) ∧
    ((Staking._notify_reward_amount staking0 1 100).1 = .ok () ∧
      (Staking._notify_reward_amount (Staking._notify_reward_amount staking0 1 100).2
        1 200).1 = .ok () ∧
      (Staking._notify_reward_amount (Staking._notify_reward_amount staking0 1 100).2
        1 200).2.reward_per_token_stored =
        100 * Staking.PRECISION / 1000 + 200 * Staking.PRECISION / 1000 ∧
      Staking.get_pending_rewards
        (Staking._notify_reward_amount (Staking._notify_reward_amount staking0 1 100).2
          1 200).2 7 = 150) := by
  refine ⟨?_, ?_, by decide⟩
  · intro hT hOk
    simp only [Staking._distribute_new_rewards, if_pos hT] at hOk ⊢
    cases hmd : checkedMulDiv amount Staking.PRECISION s.total_staked with
    | none => simp [hmd] at hOk
    | some inc =>
      simp only [hmd] at hOk ⊢
      cases hca : checkedAdd s.reward_per_token_stored inc with
      | none => simp [hca] at hOk
      | some nrps =>
        simp only [hca] at hOk ⊢
        cases hcd : checkedAdd s.total_rewards_deposited amount with
        | none => simp [hcd] at hOk
        | some t =>
          simp only [hcd]
          rw [checkedAdd_some hca, checkedMulDiv_some hmd]
  · intro hT
    simp only [Staking._distribute_new_rewards]
    rw [if_neg (show ¬0 < s.total_staked by omega)]
    cases hcd : checkedAdd s.total_rewards_deposited amount <;> simp [hcd]

/-- Witness for C3_reward_accumulator at staking0 with a deposit of
100: the accumulator advances from 0 by 100 * PRECISION / 1000. -/
theorem C3_witness :
    (Staking._distribute_new_rewards staking0 100).2.reward_per_token_stored =
      staking0.reward_per_token_stored + 100 * Staking.PRECISION / staking0.total_staked :=
  (C3_reward_accumulator staking0 100).1 (by decide) (by decide)

/-- Claim C7: unstake always pays out the full staked position.  With an
active stake, an elapsed cooldown and a successful settlement: (a) when
the principal transfer succeeds the call returns Ok, transfers the full
staked amount back to the caller and zeroes the stake; (b) when the
principal transfer fails the whole call aborts with LunesTransferFailed
and the state — staker record, total staked, staker count — is
completely unchanged, with no transfer performed; (c) when only the
pending-reward transfer fails, the unstake still completes with the
principal returned, the stake zeroed, and the settled pending reward
preserved in the staker record rather than lost. -/
theorem C7_unstake_full_position (s : Staking.State) (caller now : Nat)
    (principalOk rewardOk : Bool) (info info1 : Staking.StakerInfo)
    (hinfo : s.stakers caller = some info)
    (hamt : 0 < info.amount)
    (hcd : ¬(0 < s.unstake_cooldown_ms ∧ now - info.staked_at < s.unstake_cooldown_ms))
    (hset : Staking._update_reward s info = .ok info1) :
    (principalOk = true →
      (Staking.unstake s caller now principalOk rewardOk).result = .ok () ∧
      (Staking.unstake s caller now principalOk rewardOk).lunesTransfers =
        [(caller, info.amount)] ∧
      ((Staking.unstake s caller now principalOk rewardOk).state.stakers caller).map
        Staking.StakerInfo.amount = some 0) ∧
    (principalOk = false →
      (Staking.unstake s caller now principalOk rewardOk).result =
        .err .lunesTransferFailed ∧
      (Staking.unstake s caller now principalOk rewardOk).state = s ∧
      (Staking.unstake s caller now principalOk rewardOk).lunesTransfers = [] ∧
      (Staking.unstake s caller now principalOk rewardOk).lusdtTransfers = []) ∧
    (principalOk = true → rewardOk = false →
      (Staking.unstake s caller now principalOk rewardOk).state.stakers caller =
        some ⟨0, info1.reward_per_token_paid, info1.pending_rewards, 0⟩ ∧
      (Staking.unstake s caller now principalOk rewardOk).lusdtTransfers = []) := by
  have hae : info1.amount = info.amount := update_reward_amount_eq s info info1 hset
  simp only [Staking.unstake, hinfo]
  rw [if_neg (show ¬info.amount = 0 by omega), if_neg hcd]
  simp only [hset]
  refine ⟨?_, ?_, ?_⟩
  · intro hp
    simp only [hp, if_true]
    split
    · split
      · exact ⟨rfl, by simp [hae], by simp⟩
      · exact ⟨rfl, by simp [hae], by simp⟩
    · exact ⟨rfl, by simp [hae], by simp⟩
  · intro hp
    simp [hp]
  · intro hp hr
    simp only [hp, hr, if_true]
    split
    · simp
    · simp

/-- Witness for C7_unstake_full_position at stakingC7 (staker 8 holds
600 with 40 pending) with the principal transfer succeeding and the
reward transfer failing. -/
theorem C7_witness :
    (Staking.unstake stakingC7 8 0 true false).result = .ok () ∧
    (Staking.unstake stakingC7 8 0 true false).lunesTransfers = [(8, 600)] ∧
    (Staking.unstake stakingC7 8 0 true false).state.stakers 8 = some ⟨0, 0, 40, 0⟩ ∧
    (Staking.unstake stakingC7 8 0 true false).lusdtTransfers = [] :=
  have h := C7_unstake_full_position stakingC7 8 0 true false ⟨600, 0, 40, 0⟩
    ⟨600, 0, 40, 0⟩ rfl (by decide) (by decide) (by decide)
  ⟨(h.1 rfl).1, (h.1 rfl).2.1, (h.2.2 rfl rfl).1, (h.2.2 rfl rfl).2⟩

/-! ## C4, C8, C5 — fee engine arithmetic and zero-price handling -/

/-- Claim C4: whenever calculate_fee_in_lunes computes a fee at a
non-zero configured price, the fee equals
min(floor(floor(amount * bps / 10000) * 1e6 / price), cap(amount)) with
the tiered cap 500000 / 2000000 / 10000000 / 50000000 keyed on the
transaction size. -/
theorem C4_fee_in_lunes_formula (lusdt_amount fee_bps lunes_price_usd f : Nat)
    (hprice : lunes_price_usd ≠ 0)
    (hOk : Tax.calculate_fee_in_lunes lusdt_amount fee_bps lunes_price_usd = .ok f) :
    f = min (lusdt_amount * fee_bps / 10000 * 1000000 / lunes_price_usd)
      (if lusdt_amount ≤ 100000000 then 500000
       else if lusdt_amount ≤ 1000000000 then 2000000
       else if lusdt_amount ≤ 10000000000 then 10000000
       else 50000000) := by
  unfold Tax.calculate_fee_in_lunes at hOk
  rw [if_neg hprice] at hOk
  cases h1 : checkedMulDiv lusdt_amount fee_bps 10000 with
  | none => simp [h1] at hOk
  | some fee_usd =>
    simp only [h1] at hOk
    cases h2 : checkedMulDiv fee_usd 1000000 lunes_price_usd with
    | none => simp [h2] at hOk
    | some fl =>
      simp only [h2, Outcome.ok.injEq] at hOk
      rw [← hOk, checkedMulDiv_some h2, checkedMulDiv_some h1]

/-- Witness for C4_fee_in_lunes_formula: a 1,000,000,000-unit
transaction at 60 bps and price 0.50 USD computes fee 2,000,000 (the
uncapped conversion 12,000,000 is cut to the 2,000,000 tier cap). -/
theorem C4_witness :
    Tax.calculate_fee_in_lunes 1000000000 60 500000 = .ok 2000000 ∧
    (2000000 : Nat) = min (1000000000 * 60 / 10000 * 1000000 / 500000)
      (if (1000000000 : Nat) ≤ 100000000 then 500000
       else if (1000000000 : Nat) ≤ 1000000000 then 2000000
       else if (1000000000 : Nat) ≤ 10000000000 then 10000000
       else 50000000) :=
  ⟨by decide, C4_fee_in_lunes_formula 1000000000 60 500000 2000000 (by decide) (by decide)⟩

/-- Claim C8: whenever calculate_fee_distributions succeeds, the three
shares are dev = floor(fee*80/100), insurance = floor(fee*15/100) and
staking = fee - dev - insurance, summing exactly to the fee; in
particular the 6,000,000 fee (60 bps on 1,000,000,000) splits into
4,800,000 / 900,000 / 300,000. -/
theorem C8_distribution_split (s : Tax.State) (fee : Nat) (ft : Tax.FeeType)
    (dist : List (Nat × Nat))
    (hOk : Tax.calculate_fee_distributions s fee ft = .ok dist) :
    dist.map Prod.snd =
      [fee * 80 / 100, fee * 15 / 100, fee - fee * 80 / 100 - fee * 15 / 100] ∧
    fee * 80 / 100 + fee * 15 / 100 + (fee - fee * 80 / 100 - fee * 15 / 100) = fee ∧
    (1000000000 : Nat) * 60 / 10000 = 6000000 ∧
    Tax.calculate_fee_distributions tax0 6000000 .lunes =
      .ok [(12, 4800000), (13, 900000), (14, 300000)] ∧
    (4800000 : Nat) + 900000 + 300000 = 6000000 := by
  have key : fee * 80 / 100 + fee * 15 / 100 ≤ fee := by
    have h1 : fee * 80 / 100 * 100 ≤ fee * 80 := Nat.div_mul_le_self _ _
    have h2 : fee * 15 / 100 * 100 ≤ fee * 15 := Nat.div_mul_le_self _ _
    omega
  unfold Tax.calculate_fee_distributions at hOk
  cases h1 : checkedMulDiv fee 80 100 with
  | none => simp [h1] at hOk
  | some dev =>
    simp only [h1] at hOk
    cases h2 : checkedMulDiv fee 15 100 with
    | none => simp [h2] at hOk
    | some ins =>
      simp only [h2, Outcome.ok.injEq] at hOk
      have e1 : dev = fee * 80 / 100 := by
        have := checkedMulDiv_some h1
        simpa using this
      have e2 : ins = fee * 15 / 100 := by
        have := checkedMulDiv_some h2
        simpa using this
      subst e1 e2
      refine ⟨by rw [← hOk]; rfl, by omega, by decide, by decide, by decide⟩

/-- Witness for C8_distribution_split at the 6,000,000-unit fee. -/
theorem C8_witness :
    [(12, 4800000), (13, 900000), (14, 300000)].map Prod.snd =
      [6000000 * 80 / 100, 6000000 * 15 / 100,
       6000000 - 6000000 * 80 / 100 - 6000000 * 15 / 100] ∧
    (6000000 : Nat) * 80 / 100 + 6000000 * 15 / 100 +
      (6000000 - 6000000 * 80 / 100 - 6000000 * 15 / 100) = 6000000 :=
  have h := C8_distribution_split tax0 6000000 .lunes
    [(12, 4800000), (13, 900000), (14, 300000)] (by decide)
  ⟨h.1, h.2.1⟩

/-- _update_monthly_volume never fails with InvalidPrice (it returns Ok
or ArithmeticOverflow). -/
theorem volume_result_not_invalidPrice (s : Tax.State) (v now : Nat) :
    (Tax._update_monthly_volume s v now).1 ≠ .err .invalidPrice := by
  simp only [Tax._update_monthly_volume]
  repeat' split
  all_goals simp

/-- Claim C5 (amended): only the legacy staked-asset path treats a zero
configured price as a configuration error — it fails with InvalidPrice
and leaves the state unchanged.  The deflationary leg of
_process_dual_fee (for the non-legacy stablecoin fee types) and
_process_burn_fee_only silently skip the price-dependent fee when the
configured price is zero: no staked-asset transfer to the burn engine is
issued, and the call never fails with the invalid-price error. -/
theorem C5_zero_price_handling (s : Tax.State) (user amount bps now : Nat)
    (pullOk stablePullOk lunesPullOk legacyPullOk : Bool)
    (transferOk : Nat → Nat → Bool) (ft : Tax.FeeType)
    (hprice : s.lunes_price_usd = 0) (hft : ft ≠ Tax.FeeType.lunes) :
    Tax._process_fees_lunes s user amount bps pullOk transferOk now =
      (.err .invalidPrice, s) ∧
    ((Tax._process_burn_fee_only s user amount lunesPullOk now).burnTransfer = none ∧
      (Tax._process_burn_fee_only s user amount lunesPullOk now).result ≠
        .err .invalidPrice) ∧
    ((Tax._process_dual_fee s user amount ft stablePullOk lunesPullOk legacyPullOk
        transferOk now).burnTransfer = none ∧
      (Tax._process_dual_fee s user amount ft stablePullOk lunesPullOk legacyPullOk
        transferOk now).result ≠ .err .invalidPrice) := by
  have hv := volume_result_not_invalidPrice s amount now
  rcases hveq : Tax._update_monthly_volume s amount now with ⟨r, s1⟩
  rw [hveq] at hv
  simp only at hv
  refine ⟨?_, ?_, ?_⟩
  · simp [Tax._process_fees_lunes, Tax.calculate_fee_in_lunes, hprice]
  · simp only [Tax._process_burn_fee_only, hprice]
    repeat' split
    all_goals simp_all
  · cases ft with
    | lunes => exact absurd rfl hft
    | usdt =>
      simp only [Tax._process_dual_fee, hprice]
      repeat' split
      all_goals simp_all
    | lusdt =>
      simp only [Tax._process_dual_fee, hprice]
      cases hbe : s.burn_engine_address with
      | none => simp
      | some be =>
        cases hmd : checkedMulDiv amount (Tax.get_current_fee_bps s) 10000 with
        | none => simp [hmd]
        | some fee =>
          simp only [hmd]
          by_cases hfee : 0 < fee
          · simp only [if_pos hfee]
            by_cases hsp : stablePullOk = false
            · simp [hsp]
            · rw [if_neg hsp]
              cases h80 : checkedMulDiv fee 80 100 with
              | none => simp
              | some d =>
                simp only [h80]
                cases h15 : checkedMulDiv fee 15 100 with
                | none => simp
                | some i =>
                  simp only [h15]
                  simp [hveq, hv]
          · simp only [if_neg hfee]
            simp [hveq, hv]

/-- Counterexample to claim C5 as stated: with the burn engine
configured, a positive deflationary fee rate and a zero configured
price, _process_burn_fee_only succeeds (Ok) and issues no burn-engine
transfer instead of failing with the invalid-price error. -/
theorem C5_counterexample_burn_fee_only_ok_at_zero_price :
    taxZeroPrice.lunes_price_usd = 0 ∧
    0 < taxZeroPrice.lunes_burn_fee_bps ∧
    taxZeroPrice.burn_engine_address = some 9 ∧
    (Tax._process_burn_fee_only taxZeroPrice 5 1000000000 true 0).result = .ok () ∧
    (Tax._process_burn_fee_only taxZeroPrice 5 1000000000 true 0).burnTransfer = none := by
  decide

/-- Witness for C5_zero_price_handling at taxZeroPrice with FeeType.usdt. -/
theorem C5_witness :
    Tax._process_fees_lunes taxZeroPrice 5 1000000000 60 true (fun _ _ => true) 0 =
      (.err .invalidPrice, taxZeroPrice) ∧
    (Tax._process_burn_fee_only taxZeroPrice 5 1000000000 true 0).result ≠
      .err .invalidPrice ∧
    (Tax._process_dual_fee taxZeroPrice 5 1000000000 Tax.FeeType.usdt true true true
      (fun _ _ => true) 0).burnTransfer = none :=
  have h := C5_zero_price_handling taxZeroPrice 5 1000000000 60 0 true true true true
    (fun _ _ => true) Tax.FeeType.usdt rfl (by decide)
  ⟨h.1, h.2.1.2, h.2.2.1⟩
